import Mathlib

/-!
Shallow embedding of `geph-official/telegram-giftcard-bot` (`src/main.rs`).

The program is a Telegram bot distributing one-time giftcards.  Its state is a
durable set of redeemed user ids (`Store`, a `BTreeSet<i64>` behind an
`AcidJson` file).  The single message handler `telegram_msg_handler` reads five
JSON paths out of the inbound update, and — depending on chat type, admin
status, the redemption ledger, a group-membership API call, an issuer HTTP
call and two outbound sends — possibly inserts the sender id into the set.

External effects are embedded as explicit oracle arguments (the outcome the
Telegram API / issuer HTTP call / sends would have produced), and the handler
returns, besides its `anyhow::Result<Vec<Response>>`, the post-state of the
store, the list of messages pushed through `send_msg`, and logs of the
membership-API and issuer calls it performed.
-/

namespace GiftcardBot

/-- `Config` (main.rs lines 24–33); only the fields the handler reads. -/
structure Config where
  admin_uname : String
  bot_uname : String
  geph_group_id : Int
  create_giftcard_secret : String
  days_per_giftcard : Nat
deriving DecidableEq, Repr

/-- `Store` (main.rs lines 42–45): `redeemed_users: BTreeSet<i64>`,
a finite set of user ids. -/
structure Store where
  redeemed_users : Finset Int
deriving DecidableEq

/-- `Response` (from the `telegram_bot` crate, as constructed in main.rs). -/
structure Response where
  text : String
  chat_id : Int
  reply_to_message_id : Option Int
deriving DecidableEq, Repr

/-- The five JSON paths `telegram_msg_handler` extracts from the inbound
update `Value` (main.rs lines 77–86 and 172–174).  `none` models an absent
field or one of the wrong JSON type (`as_i64` / `as_str` returning `None`). -/
structure Update where
  sender_id : Option Int
  text : Option String
  sender_uname : Option String
  chat_type : Option String
  chat_id : Option Int
deriving DecidableEq, Repr

/-- Outcome of the `getChatMember` Telegram API call made by `user_in_group`:
either the call succeeded and the returned JSON has the given optional
`status` string field, or it failed at transport level. -/
inductive ApiResult where
  | ok (statusField : Option String)
  | err
deriving DecidableEq, Repr

/-- `user_in_group` (main.rs lines 57–71): on a successful API call the
`status` field (defaulting to `""` when absent) must be one of
`member`/`administrator`/`creator`; a failed call yields `Ok(false)`. -/
def user_in_group (user_id group_id : Int) (res : ApiResult) :
    Except String Bool :=
  match user_id, group_id, res with
  | _, _, ApiResult.ok statusField =>
      let status := statusField.getD ""
      Except.ok (status == "member" || status == "administrator" ||
        status == "creator")
  | _, _, ApiResult.err => Except.ok false

/-- Outcome of the issuer HTTP interaction inside `create_giftcards`
(main.rs lines 145–167): client construction may fail (`build()?`), the
request may fail at network level (`send().await?`), the body read may fail
(`text().await?`), or a response arrives with some HTTP status and body.
The Rust code never inspects the status (there is no `error_for_status`),
so the status is carried here only so that properties about it can be
stated. -/
inductive HttpResult where
  | buildErr
  | netErr
  | bodyErr (status : Nat)
  | response (status : Nat) (body : String)
deriving DecidableEq, Repr

/-- Rust `str::trim` (main.rs line 164): the string with leading and
trailing whitespace characters removed. -/
def strTrim (s : String) : String :=
  String.mk
    (((s.data.dropWhile Char.isWhitespace).reverse.dropWhile
        Char.isWhitespace).reverse)

/-- `create_giftcards` (main.rs lines 145–167): any error from `build`,
`send` or `text` propagates; otherwise the returned code is the response
body with surrounding whitespace trimmed.  The HTTP status of a received
response is never examined. -/
def create_giftcards (days : Nat) (secret : String) (http : HttpResult) :
    Except Unit String :=
  match days, secret, http with
  | _, _, HttpResult.buildErr => Except.error ()
  | _, _, HttpResult.netErr => Except.error ()
  | _, _, HttpResult.bodyErr _ => Except.error ()
  | _, _, HttpResult.response _ body => Except.ok (strTrim body)

/-- `isSuccessStatus s` means the HTTP status code denotes success (2xx).
This follows the spec wording (a "non-success response"); the Rust code
itself never looks at the status. -/
def isSuccessStatus (s : Nat) : Prop := 200 ≤ s ∧ s < 300

instance (s : Nat) : Decidable (isSuccessStatus s) := by
  unfold isSuccessStatus; infer_instance

/-- `to_response` (main.rs lines 169–177): wrap a text into a single
`Response` aimed at `message.chat.id`; error when that id is absent. -/
def to_response (text : String) (responding_to : Update) :
    Except String (List Response) :=
  match responding_to.chat_id with
  | some cid =>
      Except.ok [{ text := text, chat_id := cid, reply_to_message_id := none }]
  | none => Except.error "could not get chat id"

/-- The "already received a giftcard" notice (main.rs line 98). -/
def alreadyRedeemedMsg : String :=
  "🎁 You have already received a giftcard! Each user will only receive 1 giftcard\n\n🧧 您已经获得了一张礼品卡！每名用户可以得到一张礼品卡"

/-- The congratulations message sent before the code (main.rs lines 110–112). -/
def congratsMsg : String :=
  "🎉 Congratulations! Here's a 3-day Geph Plus giftcard for you:\n\n恭喜您！这里是一张3天迷雾通 Plus 礼品卡:"

/-- The redemption how-to sent after the code (main.rs line 124). -/
def redeemHowtoMsg : String :=
  "💳 To redeem the giftcard: open the Geph app --> \"Buy Plus\" / \"Extend\" in the top right corner --> \"Redeem voucher\"\n\n💝 如何兑换礼品卡：打开迷雾通 APP --> 点击右上角的“购买 Plus”或“延长” --> “兑换礼品卡”"

/-- The "must join the group" notice (main.rs line 128). -/
def mustJoinMsg : String :=
  "⛔ You must join our official group to get a giftcard:\n🚦 您必须加入迷雾通官方群组才能获得礼品卡： https://t.me/gephusers"

/-- The group-chat redirect reply (main.rs line 137). -/
def privateMessageMeMsg : String :=
  "Please <b>private message</b> me to get your giftcard\n\n请<b>私信</b>我来领取礼品卡\n\nلطفاً برای دریافت گیفت‌کارت به من <b>پیام خصوصی</b> بدهید"

/-- The admin recipient-count report (main.rs line 93). -/
def recipientCountMsg (count : Nat) : String :=
  "🌸 " ++ toString count ++ " users received giftcards!"

/-- Substring test, embedding Rust `str::contains` (main.rs line 135). -/
def strContainsSub (hay needle : String) : Bool :=
  hay.data.tails.any (fun t => needle.data.isPrefixOf t)

instance {ε α : Type} [DecidableEq ε] [DecidableEq α] :
    DecidableEq (Except ε α) := fun x y =>
  match x, y with
  | Except.ok a, Except.ok b =>
      if h : a = b then isTrue (by rw [h])
      else isFalse (by intro hc; cases hc; exact h rfl)
  | Except.ok _, Except.error _ => isFalse (by intro hc; cases hc)
  | Except.error _, Except.ok _ => isFalse (by intro hc; cases hc)
  | Except.error e, Except.error f =>
      if h : e = f then isTrue (by rw [h])
      else isFalse (by intro hc; cases hc; exact h rfl)

/-- Everything one invocation of `telegram_msg_handler` produces: the
`anyhow::Result<Vec<Response>>` it returns, the store after the call, the
messages it pushed through `TELEGRAM.send_msg`, and the membership-API and
issuer calls it made ((user, group) pairs resp. (days, secret) pairs). -/
structure HandlerOutput where
  result : Except String (List Response)
  store : Store
  sent : List Response
  membershipCalls : List (Int × Int)
  issuerCalls : List (Nat × String)
deriving DecidableEq

/-- `telegram_msg_handler` (main.rs lines 73–143), with the external world
passed in as oracles: `memberApi` is what the `getChatMember` call would
return, `http` what the issuer HTTP interaction would produce, and
`send1Ok`/`send2Ok` whether the two `send_msg` calls of the success path
would succeed. -/
def telegram_msg_handler (cfg : Config) (store : Store) (update : Update)
    (memberApi : ApiResult) (http : HttpResult) (send1Ok send2Ok : Bool) :
    HandlerOutput :=
  match update.sender_id with
  | none =>
      { result := Except.error "could not get sender id", store := store,
        sent := [], membershipCalls := [], issuerCalls := [] }
  | some sender_id =>
      let msg := update.text.getD ""
      let sender_uname := update.sender_uname.getD ""
      let chat_type := update.chat_type.getD ""
      if chat_type = "private" then
        if sender_uname = cfg.admin_uname then
          if msg = "#RecipientCount" then
            { result :=
                to_response (recipientCountMsg store.redeemed_users.card)
                  update,
              store := store, sent := [], membershipCalls := [],
              issuerCalls := [] }
          else
            { result := Except.ok [], store := store, sent := [],
              membershipCalls := [], issuerCalls := [] }
        else
          if sender_id ∈ store.redeemed_users then
            { result := to_response alreadyRedeemedMsg update,
              store := store, sent := [], membershipCalls := [],
              issuerCalls := [] }
          else
            match user_in_group sender_id cfg.geph_group_id memberApi with
            | Except.error e =>
                { result := Except.error e, store := store, sent := [],
                  membershipCalls := [(sender_id, cfg.geph_group_id)],
                  issuerCalls := [] }
            | Except.ok false =>
                { result := to_response mustJoinMsg update, store := store,
                  sent := [],
                  membershipCalls := [(sender_id, cfg.geph_group_id)],
                  issuerCalls := [] }
            | Except.ok true =>
                match create_giftcards cfg.days_per_giftcard
                    cfg.create_giftcard_secret http with
                | Except.error _ =>
                    { result := Except.error "create_giftcards failed",
                      store := store, sent := [],
                      membershipCalls := [(sender_id, cfg.geph_group_id)],
                      issuerCalls :=
                        [(cfg.days_per_giftcard, cfg.create_giftcard_secret)] }
                | Except.ok gc =>
                    let store2 : Store :=
                      { redeemed_users := insert sender_id store.redeemed_users }
                    let congrats : Response :=
                      { text := congratsMsg, chat_id := sender_id,
                        reply_to_message_id := none }
                    let gcResp : Response :=
                      { text := gc, chat_id := sender_id,
                        reply_to_message_id := none }
                    if send1Ok then
                      if send2Ok then
                        { result := to_response redeemHowtoMsg update,
                          store := store2, sent := [congrats, gcResp],
                          membershipCalls := [(sender_id, cfg.geph_group_id)],
                          issuerCalls :=
                            [(cfg.days_per_giftcard,
                              cfg.create_giftcard_secret)] }
                      else
                        { result := Except.error "send_msg failed",
                          store := store2, sent := [congrats],
                          membershipCalls := [(sender_id, cfg.geph_group_id)],
                          issuerCalls :=
                            [(cfg.days_per_giftcard,
                              cfg.create_giftcard_secret)] }
                    else
                      { result := Except.error "send_msg failed",
                        store := store2, sent := [],
                        membershipCalls := [(sender_id, cfg.geph_group_id)],
                        issuerCalls :=
                          [(cfg.days_per_giftcard,
                            cfg.create_giftcard_secret)] }
      else
        if chat_type = "group" ∨ chat_type = "supergroup" then
          let bot_mention := "@" ++ cfg.bot_uname
          if strContainsSub msg bot_mention then
            { result := to_response privateMessageMeMsg update,
              store := store, sent := [], membershipCalls := [],
              issuerCalls := [] }
          else
            { result := Except.ok [], store := store, sent := [],
              membershipCalls := [], issuerCalls := [] }
        else
          { result := Except.ok [], store := store, sent := [],
            membershipCalls := [], issuerCalls := [] }

/-- Ledger lookup: membership of a user id in the redeemed set
(main.rs line 96, `STORE.read().redeemed_users.contains(&sender_id)`). -/
def isRedeemed (s : Store) (x : Int) : Bool :=
  decide (x ∈ s.redeemed_users)

/-- Ledger mutation: the single insert the program performs
(main.rs line 106, `STORE.write().redeemed_users.insert(sender_id)`). -/
def markRedeemed (s : Store) (x : Int) : Store :=
  { redeemed_users := insert x s.redeemed_users }

/-- Ledger cardinality (main.rs line 92,
`STORE.read().redeemed_users.len()`). -/
def count (s : Store) : Nat :=
  s.redeemed_users.card

/-- State of the backing file at startup. -/
inductive FileState where
  | missing
  | corrupt
  | valid (s : Store)

/-- `STORE` initialization (main.rs lines 47–52).  Modelled from the
`acidjson` crate contract used there: `AcidJson::open_or_else(path, f)`
parses the file when it exists (a parse failure is an error, made fatal by
the `.unwrap()`), and uses the fallback closure when the file is missing;
the closure in main.rs builds a `Store` with an empty `redeemed_users`. -/
def store_init (file : FileState) : Except String Store :=
  match file with
  | FileState.missing => Except.ok { redeemed_users := ∅ }
  | FileState.corrupt => Except.error "cannot parse store file"
  | FileState.valid s => Except.ok s

/-- One unit of work of the running program: either a handler invocation on
some inbound update (with its external-world oracles), or a process restart.
A restart re-opens the backing file; since every mutation is persisted
synchronously by the `AcidJson` write guard before the handler continues,
the reloaded set is exactly the set last persisted. -/
inductive Op where
  | handle (update : Update) (memberApi : ApiResult) (http : HttpResult)
      (send1Ok send2Ok : Bool)
  | restart

/-- Effect of one unit of work on the (durable) store. -/
def step (cfg : Config) (s : Store) : Op → Store
  | Op.handle u m h b1 b2 => (telegram_msg_handler cfg s u m h b1 b2).store
  | Op.restart => s

/-- Run a sequence of units of work from a starting store. -/
def run (cfg : Config) (s : Store) : List Op → Store
  | [] => s
  | op :: ops => run cfg (step cfg s op) ops

/-- Sample configuration used to evaluate the definitions on concrete
inputs. -/
def cfgW : Config :=
  { admin_uname := "adm", bot_uname := "gephbot", geph_group_id := 77,
    create_giftcard_secret := "sec", days_per_giftcard := 3 }

/-- Sample private-chat update from non-admin user 100. -/
def updW : Update :=
  { sender_id := some 100, text := some "hi", sender_uname := some "alice",
    chat_type := some "private", chat_id := some 100 }

/-- Sample private-chat update from non-admin user 50. -/
def updW50 : Update :=
  { sender_id := some 50, text := some "hi", sender_uname := some "bob",
    chat_type := some "private", chat_id := some 50 }

/-- Sample group-chat update from user 100 mentioning the bot. -/
def updG : Update :=
  { sender_id := some 100, text := some "hello @gephbot please",
    sender_uname := some "alice", chat_type := some "supergroup",
    chat_id := some 5 }

/-- Sample unit of work: a successful redemption flow run for user 50. -/
def opW1 : Op :=
  Op.handle updW50 (ApiResult.ok (some "member"))
    (HttpResult.response 200 " C ") true true

/-- Exhaustive description of the store after one handler invocation:
either it is unchanged, or it is the old store with the sender id
inserted — and the latter happens only when the membership check returned
`Ok(true)` and the issuer call returned a code. -/
theorem handler_store_cases (cfg : Config) (store : Store) (u : Update)
    (m : ApiResult) (h : HttpResult) (b1 b2 : Bool) :
    (telegram_msg_handler cfg store u m h b1 b2).store = store ∨
    (∃ x gc, u.sender_id = some x ∧
      user_in_group x cfg.geph_group_id m = Except.ok true ∧
      create_giftcards cfg.days_per_giftcard cfg.create_giftcard_secret h =
        Except.ok gc ∧
      (telegram_msg_handler cfg store u m h b1 b2).store =
        markRedeemed store x) := by
  unfold telegram_msg_handler
  cases hs : u.sender_id with
  | none => exact Or.inl rfl
  | some x =>
      dsimp only
      split
      · split
        · split
          · exact Or.inl rfl
          · exact Or.inl rfl
        · split
          · exact Or.inl rfl
          · split
            · exact Or.inl rfl
            · exact Or.inl rfl
            · next hmem =>
                split
                · exact Or.inl rfl
                · next gc hgc =>
                    refine Or.inr ⟨x, gc, rfl, hmem, hgc, ?_⟩
                    split
                    · split
                      · rfl
                      · rfl
                    · rfl
      · split
        · split
          · exact Or.inl rfl
          · exact Or.inl rfl
        · exact Or.inl rfl

/-- One handler invocation never removes anything from the redeemed set. -/
theorem handler_mono (cfg : Config) (store : Store) (u : Update)
    (m : ApiResult) (h : HttpResult) (b1 b2 : Bool) :
    store.redeemed_users ⊆
      (telegram_msg_handler cfg store u m h b1 b2).store.redeemed_users := by
  rcases handler_store_cases cfg store u m h b1 b2 with
    heq | ⟨x, gc, _, _, _, heq⟩
  · rw [heq]
  · rw [heq]
    exact Finset.subset_insert x store.redeemed_users

/-- One unit of work never removes anything from the redeemed set. -/
theorem step_mono (cfg : Config) (s : Store) (op : Op) :
    s.redeemed_users ⊆ (step cfg s op).redeemed_users := by
  cases op with
  | handle u m h b1 b2 => exact handler_mono cfg s u m h b1 b2
  | restart => exact Finset.Subset.refl _

/-- A whole run never removes anything from the redeemed set. -/
theorem run_mono (cfg : Config) (ops : List Op) :
    ∀ s : Store, s.redeemed_users ⊆ (run cfg s ops).redeemed_users := by
  induction ops with
  | nil => intro s; exact Finset.Subset.refl _
  | cons op ops ih =>
      intro s
      exact Finset.Subset.trans (step_mono cfg s op) (ih (step cfg s op))

/-- A run over units of work none of which handles an update sent by `x`
never makes `x` redeemed. -/
theorem run_not_mem (cfg : Config) (x : Int) (ops : List Op) :
    ∀ s : Store, x ∉ s.redeemed_users →
    (∀ op ∈ ops, ∀ u m h b1 b2, op = Op.handle u m h b1 b2 →
      u.sender_id ≠ some x) →
    x ∉ (run cfg s ops).redeemed_users := by
  induction ops with
  | nil => intro s hx _; exact hx
  | cons op ops ih =>
      intro s hx hno
      apply ih
      · cases op with
        | restart => exact hx
        | handle u m h b1 b2 =>
            show x ∉ (telegram_msg_handler cfg s u m h b1 b2).store.redeemed_users
            rcases handler_store_cases cfg s u m h b1 b2 with
              heq | ⟨y, gc, hy, _, _, heq⟩
            · rw [heq]; exact hx
            · rw [heq]
              intro hmem
              rcases Finset.mem_insert.mp hmem with hxy | hxs
              · exact hno (Op.handle u m h b1 b2) (List.mem_cons_self _ _)
                  u m h b1 b2 rfl (hxy ▸ hy)
              · exact hx hxs
      · intro op2 hop2 u m h b1 b2 hop2eq
        exact hno op2 (List.mem_cons_of_mem _ hop2) u m h b1 b2 hop2eq

/-- C1: for an inbound private message from a non-admin, not-yet-redeemed
sender, the sender id is inserted into the redeemed set only when the
membership check returned `true` and the issuer call succeeded; and when
the issuer call fails, the redeemed set is unchanged and `isRedeemed`
remains false for that sender. -/
theorem ledger_mutation_only_after_member_and_issue
    (cfg : Config) (store : Store) (u : Update) (m : ApiResult)
    (h : HttpResult) (b1 b2 : Bool) (x : Int)
    (hx : u.sender_id = some x)
    (hpriv : u.chat_type = some "private")
    (hadmin : u.sender_uname.getD "" ≠ cfg.admin_uname)
    (hnew : isRedeemed store x = false) :
    ((telegram_msg_handler cfg store u m h b1 b2).store ≠ store →
      user_in_group x cfg.geph_group_id m = Except.ok true ∧
      ∃ gc, create_giftcards cfg.days_per_giftcard cfg.create_giftcard_secret h
        = Except.ok gc) ∧
    (create_giftcards cfg.days_per_giftcard cfg.create_giftcard_secret h =
        Except.error () →
      (telegram_msg_handler cfg store u m h b1 b2).store = store ∧
      isRedeemed (telegram_msg_handler cfg store u m h b1 b2).store x =
        false) := by
  constructor
  · intro hne
    rcases handler_store_cases cfg store u m h b1 b2 with
      heq | ⟨y, gc, hy, hmem, hgc, heq⟩
    · exact absurd heq hne
    · rw [hy] at hx
      injection hx with hyx
      subst hyx
      exact ⟨hmem, gc, hgc⟩
  · intro herr
    rcases handler_store_cases cfg store u m h b1 b2 with
      heq | ⟨y, gc, hy, hmem, hgc, heq⟩
    · refine ⟨heq, ?_⟩
      rw [heq]
      exact hnew
    · simp [hgc] at herr

/-- Witness for C1 at a concrete member request whose issuer call fails at
network level. -/
theorem ledger_mutation_only_after_member_and_issue_witness :
    (((telegram_msg_handler cfgW ⟨∅⟩ updW (ApiResult.ok (some "member"))
        HttpResult.netErr true true).store ≠ (⟨∅⟩ : Store) →
      user_in_group 100 cfgW.geph_group_id (ApiResult.ok (some "member")) =
        Except.ok true ∧
      ∃ gc, create_giftcards cfgW.days_per_giftcard cfgW.create_giftcard_secret
        HttpResult.netErr = Except.ok gc) ∧
     (create_giftcards cfgW.days_per_giftcard cfgW.create_giftcard_secret
        HttpResult.netErr = Except.error () →
      (telegram_msg_handler cfgW ⟨∅⟩ updW (ApiResult.ok (some "member"))
        HttpResult.netErr true true).store = (⟨∅⟩ : Store) ∧
      isRedeemed (telegram_msg_handler cfgW ⟨∅⟩ updW
        (ApiResult.ok (some "member")) HttpResult.netErr true true).store 100 =
        false)) :=
  ledger_mutation_only_after_member_and_issue cfgW ⟨∅⟩ updW
    (ApiResult.ok (some "member")) HttpResult.netErr true true 100
    rfl rfl (by decide) (by decide)

/-- C3: a private message from a non-admin sender already in the redeemed
set gets the "already redeemed" notice; no issuer call, no membership check,
store unchanged. -/
theorem already_redeemed_short_circuit
    (cfg : Config) (store : Store) (u : Update) (m : ApiResult)
    (h : HttpResult) (b1 b2 : Bool) (x c : Int)
    (hx : u.sender_id = some x)
    (hpriv : u.chat_type = some "private")
    (hadmin : u.sender_uname.getD "" ≠ cfg.admin_uname)
    (hred : isRedeemed store x = true)
    (hc : u.chat_id = some c) :
    (telegram_msg_handler cfg store u m h b1 b2).result =
      Except.ok [{ text := alreadyRedeemedMsg, chat_id := c,
                   reply_to_message_id := none }] ∧
    (telegram_msg_handler cfg store u m h b1 b2).issuerCalls = [] ∧
    (telegram_msg_handler cfg store u m h b1 b2).membershipCalls = [] ∧
    (telegram_msg_handler cfg store u m h b1 b2).store = store ∧
    (telegram_msg_handler cfg store u m h b1 b2).sent = [] := by
  have hmem : x ∈ store.redeemed_users := by simpa [isRedeemed] using hred
  refine ⟨?_, ?_, ?_, ?_, ?_⟩ <;>
    simp [telegram_msg_handler, hx, hpriv, hadmin, hmem, to_response, hc]

/-- Witness for C3: user 100 already redeemed sends another private
message. -/
theorem already_redeemed_short_circuit_witness :
    (telegram_msg_handler cfgW ⟨{100}⟩ updW ApiResult.err HttpResult.netErr
      true true).result =
      Except.ok [{ text := alreadyRedeemedMsg, chat_id := 100,
                   reply_to_message_id := none }] ∧
    (telegram_msg_handler cfgW ⟨{100}⟩ updW ApiResult.err HttpResult.netErr
      true true).issuerCalls = [] ∧
    (telegram_msg_handler cfgW ⟨{100}⟩ updW ApiResult.err HttpResult.netErr
      true true).membershipCalls = [] ∧
    (telegram_msg_handler cfgW ⟨{100}⟩ updW ApiResult.err HttpResult.netErr
      true true).store = (⟨{100}⟩ : Store) ∧
    (telegram_msg_handler cfgW ⟨{100}⟩ updW ApiResult.err HttpResult.netErr
      true true).sent = [] :=
  already_redeemed_short_circuit cfgW ⟨{100}⟩ updW ApiResult.err
    HttpResult.netErr true true 100 100 rfl rfl (by decide) (by decide) rfl

/-- C6: a transport-level error in the membership lookup yields
`Ok(false)` (fail closed), and a non-member requester gets the "must join"
notice with no issuer call and an unchanged redeemed set. -/
theorem membership_fails_closed
    (uid gid : Int) (cfg : Config) (store : Store) (u : Update)
    (m : ApiResult) (h : HttpResult) (b1 b2 : Bool) (x c : Int)
    (hx : u.sender_id = some x)
    (hpriv : u.chat_type = some "private")
    (hadmin : u.sender_uname.getD "" ≠ cfg.admin_uname)
    (hnew : isRedeemed store x = false)
    (hc : u.chat_id = some c)
    (hnm : user_in_group x cfg.geph_group_id m = Except.ok false) :
    user_in_group uid gid ApiResult.err = Except.ok false ∧
    (telegram_msg_handler cfg store u m h b1 b2).result =
      Except.ok [{ text := mustJoinMsg, chat_id := c,
                   reply_to_message_id := none }] ∧
    (telegram_msg_handler cfg store u m h b1 b2).issuerCalls = [] ∧
    (telegram_msg_handler cfg store u m h b1 b2).store = store ∧
    (telegram_msg_handler cfg store u m h b1 b2).sent = [] := by
  have hmem : x ∉ store.redeemed_users := by simpa [isRedeemed] using hnew
  refine ⟨rfl, ?_, ?_, ?_, ?_⟩ <;>
    simp [telegram_msg_handler, hx, hpriv, hadmin, hmem, hnm, to_response, hc]

/-- Witness for C6: non-member user 100 (membership API reports status
"left") requests a card. -/
theorem membership_fails_closed_witness :
    user_in_group 4 9 ApiResult.err = Except.ok false ∧
    (telegram_msg_handler cfgW ⟨∅⟩ updW (ApiResult.ok (some "left"))
      HttpResult.netErr true true).result =
      Except.ok [{ text := mustJoinMsg, chat_id := 100,
                   reply_to_message_id := none }] ∧
    (telegram_msg_handler cfgW ⟨∅⟩ updW (ApiResult.ok (some "left"))
      HttpResult.netErr true true).issuerCalls = [] ∧
    (telegram_msg_handler cfgW ⟨∅⟩ updW (ApiResult.ok (some "left"))
      HttpResult.netErr true true).store = (⟨∅⟩ : Store) ∧
    (telegram_msg_handler cfgW ⟨∅⟩ updW (ApiResult.ok (some "left"))
      HttpResult.netErr true true).sent = [] :=
  membership_fails_closed 4 9 cfgW ⟨∅⟩ updW (ApiResult.ok (some "left"))
    HttpResult.netErr true true 100 100 rfl rfl (by decide) (by decide) rfl
    (by decide)

/-- C10: an update with no usable `message.from.id` makes the handler
return the "could not get sender id" error with the store untouched,
nothing sent, and no membership or issuer call. -/
theorem missing_sender_id_errors
    (cfg : Config) (store : Store) (u : Update) (m : ApiResult)
    (h : HttpResult) (b1 b2 : Bool)
    (hnone : u.sender_id = none) :
    (telegram_msg_handler cfg store u m h b1 b2).result =
      Except.error "could not get sender id" ∧
    (telegram_msg_handler cfg store u m h b1 b2).store = store ∧
    (telegram_msg_handler cfg store u m h b1 b2).sent = [] ∧
    (telegram_msg_handler cfg store u m h b1 b2).membershipCalls = [] ∧
    (telegram_msg_handler cfg store u m h b1 b2).issuerCalls = [] := by
  refine ⟨?_, ?_, ?_, ?_, ?_⟩ <;> simp [telegram_msg_handler, hnone]

/-- Witness for C10 at a concrete update whose sender id field is absent. -/
theorem missing_sender_id_errors_witness :
    (telegram_msg_handler cfgW ⟨{7}⟩
      { sender_id := none, text := some "hi", sender_uname := some "alice",
        chat_type := some "private", chat_id := some 3 }
      ApiResult.err HttpResult.netErr true true).result =
      Except.error "could not get sender id" ∧
    (telegram_msg_handler cfgW ⟨{7}⟩
      { sender_id := none, text := some "hi", sender_uname := some "alice",
        chat_type := some "private", chat_id := some 3 }
      ApiResult.err HttpResult.netErr true true).store = (⟨{7}⟩ : Store) ∧
    (telegram_msg_handler cfgW ⟨{7}⟩
      { sender_id := none, text := some "hi", sender_uname := some "alice",
        chat_type := some "private", chat_id := some 3 }
      ApiResult.err HttpResult.netErr true true).sent = [] ∧
    (telegram_msg_handler cfgW ⟨{7}⟩
      { sender_id := none, text := some "hi", sender_uname := some "alice",
        chat_type := some "private", chat_id := some 3 }
      ApiResult.err HttpResult.netErr true true).membershipCalls = [] ∧
    (telegram_msg_handler cfgW ⟨{7}⟩
      { sender_id := none, text := some "hi", sender_uname := some "alice",
        chat_type := some "private", chat_id := some 3 }
      ApiResult.err HttpResult.netErr true true).issuerCalls = [] :=
  missing_sender_id_errors cfgW ⟨{7}⟩
    { sender_id := none, text := some "hi", sender_uname := some "alice",
      chat_type := some "private", chat_id := some 3 }
    ApiResult.err HttpResult.netErr true true rfl

/-- C4: the redeemed set only grows: any identifier present before a unit
of work (handling an arbitrary inbound update, or a restart), and before a
whole run of such operations, is still present afterwards; no operation
removes one. -/
theorem redeemed_set_only_grows (cfg : Config) (s : Store) (op : Op)
    (ops : List Op) (y : Int) (hy : y ∈ s.redeemed_users) :
    y ∈ (step cfg s op).redeemed_users ∧
    y ∈ (run cfg s ops).redeemed_users :=
  ⟨step_mono cfg s op hy, run_mono cfg ops s hy⟩

set_option maxRecDepth 10000 in
/-- Witness for C4: user 100 is still redeemed after a redemption by user
50 and after a whole run including a restart. -/
theorem redeemed_set_only_grows_witness :
    (100 : Int) ∈ (Store.mk {100}).redeemed_users ∧
    ((100 : Int) ∈ (step cfgW ⟨{100}⟩ opW1).redeemed_users ∧
     (100 : Int) ∈ (run cfgW ⟨{100}⟩ [opW1, Op.restart]).redeemed_users) :=
  ⟨by decide,
   redeemed_set_only_grows cfgW ⟨{100}⟩ opW1 [opW1, Op.restart] 100
     (by decide)⟩

/-- C5: `isRedeemed x` is false before any `markRedeemed x` has occurred
(it stays false through a run none of whose handled updates came from `x`);
a `markRedeemed x` makes it true, and it remains true in every state
reached afterwards, process restarts included. -/
theorem isRedeemed_tracks_markRedeemed (cfg : Config) (x : Int) (s : Store)
    (pre post : List Op)
    (h0 : isRedeemed s x = false)
    (hno : ∀ op ∈ pre, ∀ u m h b1 b2, op = Op.handle u m h b1 b2 →
      u.sender_id ≠ some x) :
    isRedeemed (run cfg s pre) x = false ∧
    isRedeemed (markRedeemed (run cfg s pre) x) x = true ∧
    isRedeemed (run cfg (markRedeemed (run cfg s pre) x) post) x = true := by
  have h0m : x ∉ s.redeemed_users := by simpa [isRedeemed] using h0
  have hpre : x ∉ (run cfg s pre).redeemed_users :=
    run_not_mem cfg x pre s h0m hno
  refine ⟨by simpa [isRedeemed] using hpre,
    by simp [isRedeemed, markRedeemed], ?_⟩
  have hx : x ∈ (markRedeemed (run cfg s pre) x).redeemed_users := by
    simp [markRedeemed]
  have hrun := run_mono cfg post (markRedeemed (run cfg s pre) x) hx
  simpa [isRedeemed] using hrun

set_option maxRecDepth 10000 in
/-- Witness for C5: user 100 on an empty store, with a run by user 50 and a
restart before the mark and a restart plus another user-50 run after it. -/
theorem isRedeemed_tracks_markRedeemed_witness :
    isRedeemed (run cfgW ⟨∅⟩ [opW1, Op.restart]) 100 = false ∧
    isRedeemed (markRedeemed (run cfgW ⟨∅⟩ [opW1, Op.restart]) 100) 100 =
      true ∧
    isRedeemed (run cfgW (markRedeemed (run cfgW ⟨∅⟩ [opW1, Op.restart]) 100)
      [Op.restart, opW1]) 100 = true :=
  isRedeemed_tracks_markRedeemed cfgW 100 ⟨∅⟩ [opW1, Op.restart]
    [Op.restart, opW1] (by decide)
    (by
      intro op hop u m h b1 b2 heq hsend
      rcases List.mem_cons.mp hop with rfl | hop
      · simp only [opW1, Op.handle.injEq] at heq
        obtain ⟨hu, -, -, -, -⟩ := heq
        subst hu
        simp [updW50] at hsend
      · rcases List.mem_cons.mp hop with rfl | hop
        · exact Op.noConfusion heq
        · cases hop)

/-- Marking a not-yet-redeemed identifier increases the count by one. -/
theorem count_markRedeemed (s : Store) (x : Int)
    (hx : isRedeemed s x = false) :
    count (markRedeemed s x) = count s + 1 := by
  have hm : x ∉ s.redeemed_users := by simpa [isRedeemed] using hx
  simp [count, markRedeemed, Finset.card_insert_of_not_mem hm]

/-- Folding `markRedeemed` over distinct fresh identifiers adds their
number to the count. -/
theorem count_foldl_markRedeemed (xs : List Int) :
    ∀ s : Store, xs.Nodup → (∀ x ∈ xs, isRedeemed s x = false) →
    count (xs.foldl markRedeemed s) = count s + xs.length := by
  induction xs with
  | nil => intro s _ _; simp
  | cons a as ih =>
      intro s hnd hfresh
      have ha : isRedeemed s a = false := hfresh a (List.mem_cons_self a as)
      have hstep : count (markRedeemed s a) = count s + 1 :=
        count_markRedeemed s a ha
      have hfresh2 : ∀ x ∈ as, isRedeemed (markRedeemed s a) x = false := by
        intro x hxas
        have hxa : x ≠ a := by
          intro hcontra
          subst hcontra
          exact (List.nodup_cons.mp hnd).1 hxas
        have hxs : isRedeemed s x = false :=
          hfresh x (List.mem_cons_of_mem a hxas)
        simp [isRedeemed, markRedeemed] at hxs ⊢
        exact ⟨hxa, hxs⟩
      have hrec := ih (markRedeemed s a) (List.nodup_cons.mp hnd).2 hfresh2
      simp only [List.foldl_cons, List.length_cons]
      rw [hrec, hstep]
      omega

/-- C7: `count` returns the cardinality of the redeemed set; marking n
distinct previously-unredeemed identifiers adds n to it; and from the
empty store, marking user 100 makes `isRedeemed 100` true and the count
equal to 1. -/
theorem count_after_markRedeemed (s : Store) (xs : List Int)
    (hnd : xs.Nodup) (hfresh : ∀ x ∈ xs, isRedeemed s x = false) :
    count s = s.redeemed_users.card ∧
    count (xs.foldl markRedeemed s) = count s + xs.length ∧
    isRedeemed (markRedeemed ⟨∅⟩ 100) 100 = true ∧
    count (markRedeemed (⟨∅⟩ : Store) 100) = 1 :=
  ⟨rfl, count_foldl_markRedeemed xs s hnd hfresh, by decide, by decide⟩

/-- Witness for C7: marking fresh users 5 and 9 on a store holding 7. -/
theorem count_after_markRedeemed_witness :
    count (Store.mk {7}) = (Store.mk {7}).redeemed_users.card ∧
    count ([(5 : Int), 9].foldl markRedeemed ⟨{7}⟩) =
      count (⟨{7}⟩ : Store) + 2 ∧
    isRedeemed (markRedeemed ⟨∅⟩ 100) 100 = true ∧
    count (markRedeemed (⟨∅⟩ : Store) 100) = 1 :=
  count_after_markRedeemed ⟨{7}⟩ [5, 9] (by decide) (by decide)

/-- C8: a missing backing file at startup is not an error: the ledger is
initialized to the empty set of redeemed users. -/
theorem store_init_missing_file :
    store_init FileState.missing = Except.ok { redeemed_users := ∅ } := rfl

/-- C9: an update whose chat type is not "private" never mutates the
redeemed set and triggers no issuer call (nor membership call, nor send);
a group or supergroup message mentioning the bot username gets exactly the
"private message me" redirect, and any other non-private message gets no
response at all. -/
theorem non_private_frame (cfg : Config) (store : Store) (u : Update)
    (m : ApiResult) (h : HttpResult) (b1 b2 : Bool)
    (hnp : u.chat_type.getD "" ≠ "private") :
    ((telegram_msg_handler cfg store u m h b1 b2).store = store ∧
     (telegram_msg_handler cfg store u m h b1 b2).issuerCalls = [] ∧
     (telegram_msg_handler cfg store u m h b1 b2).membershipCalls = [] ∧
     (telegram_msg_handler cfg store u m h b1 b2).sent = []) ∧
    (∀ x c, u.sender_id = some x → u.chat_id = some c →
      ((u.chat_type.getD "" = "group" ∨ u.chat_type.getD "" = "supergroup") →
        (strContainsSub (u.text.getD "") ("@" ++ cfg.bot_uname) = true →
          (telegram_msg_handler cfg store u m h b1 b2).result =
            Except.ok [{ text := privateMessageMeMsg, chat_id := c,
                         reply_to_message_id := none }]) ∧
        (strContainsSub (u.text.getD "") ("@" ++ cfg.bot_uname) = false →
          (telegram_msg_handler cfg store u m h b1 b2).result =
            Except.ok [])) ∧
      (¬(u.chat_type.getD "" = "group" ∨
          u.chat_type.getD "" = "supergroup") →
        (telegram_msg_handler cfg store u m h b1 b2).result =
          Except.ok [])) := by
  constructor
  · cases hs : u.sender_id with
    | none =>
        refine ⟨?_, ?_, ?_, ?_⟩ <;> simp [telegram_msg_handler, hs]
    | some x =>
        refine ⟨?_, ?_, ?_, ?_⟩ <;>
          (simp only [telegram_msg_handler, hs]
           rw [if_neg hnp]
           split_ifs <;> rfl)
  · intro x c hx hc
    constructor
    · intro hg
      constructor
      · intro hmention
        rcases hg with hg | hg <;>
          simp [telegram_msg_handler, hx, hg, hmention, to_response, hc]
      · intro hmention
        rcases hg with hg | hg <;>
          simp [telegram_msg_handler, hx, hg, hmention]
    · intro hng
      have hg1 : u.chat_type.getD "" ≠ "group" := fun hcg => hng (Or.inl hcg)
      have hg2 : u.chat_type.getD "" ≠ "supergroup" :=
        fun hcg => hng (Or.inr hcg)
      simp [telegram_msg_handler, hx, hnp, hg1, hg2]

/-- Witness for C9: a supergroup message from user 100 mentioning the
bot. -/
theorem non_private_frame_witness :
    ((telegram_msg_handler cfgW ⟨{7}⟩ updG ApiResult.err HttpResult.netErr
        true true).store = (⟨{7}⟩ : Store) ∧
     (telegram_msg_handler cfgW ⟨{7}⟩ updG ApiResult.err HttpResult.netErr
        true true).issuerCalls = [] ∧
     (telegram_msg_handler cfgW ⟨{7}⟩ updG ApiResult.err HttpResult.netErr
        true true).membershipCalls = [] ∧
     (telegram_msg_handler cfgW ⟨{7}⟩ updG ApiResult.err HttpResult.netErr
        true true).sent = []) ∧
    (telegram_msg_handler cfgW ⟨{7}⟩ updG ApiResult.err HttpResult.netErr
        true true).result =
      Except.ok [{ text := privateMessageMeMsg, chat_id := 5,
                   reply_to_message_id := none }] := by
  have hmain := non_private_frame cfgW ⟨{7}⟩ updG ApiResult.err
    HttpResult.netErr true true (by decide)
  exact ⟨hmain.1,
    ((hmain.2 100 5 rfl rfl).1 (Or.inr (by decide))).1 (by decide)⟩

/-- C2 counterexample: the code never inspects the HTTP status of the
issuer response (there is no `error_for_status`): a received response with
non-success status 500 still produces a trimmed card code instead of an
error. -/
theorem create_giftcards_ignores_status_counterexample :
    ¬ isSuccessStatus 500 ∧
    create_giftcards 3 "sec" (HttpResult.response 500 " CODE ") =
      Except.ok "CODE" ∧
    create_giftcards 3 "sec" (HttpResult.response 500 " CODE ") ≠
      Except.error () :=
  ⟨by decide, by decide, by decide⟩

/-- C2 amended: a client-build failure, network failure or body-read
failure is an error with no card produced; any received response —
regardless of its HTTP status — yields the response body with leading and
trailing whitespace trimmed. -/
theorem create_giftcards_errors_and_trim (days : Nat) (secret : String) :
    (∀ http : HttpResult,
      (http = HttpResult.buildErr ∨ http = HttpResult.netErr ∨
        ∃ st, http = HttpResult.bodyErr st) →
      create_giftcards days secret http = Except.error ()) ∧
    (∀ status body,
      create_giftcards days secret (HttpResult.response status body) =
        Except.ok (strTrim body)) := by
  constructor
  · rintro http (rfl | rfl | ⟨st, rfl⟩) <;> rfl
  · intro status body
    rfl

/-- Witness for the amended C2 at concrete inputs. -/
theorem create_giftcards_errors_and_trim_witness :
    create_giftcards 3 "sec" HttpResult.netErr = Except.error () ∧
    create_giftcards 3 "sec" (HttpResult.response 200 " CODE ") =
      Except.ok "CODE" := by
  constructor
  · exact (create_giftcards_errors_and_trim 3 "sec").1 HttpResult.netErr
      (Or.inr (Or.inl rfl))
  · have h2 := (create_giftcards_errors_and_trim 3 "sec").2 200 " CODE "
    rw [h2]
    decide

end GiftcardBot
